import Mathlib

/-!
Shallow embedding of the pan-backend authentication and booking subsystem.

Sources embedded:
  - src/models.py       : AdminUser, AdminUserCreate, AdminUserLogin, Booking, BookingCreate
  - src/auth_routes.py  : register_admin, login, change_password
  - src/routes.py       : create_booking, update_booking_status
  - src/email_service.py: send_email, send_booking_notification

The module auth.py (get_password_hash, verify_password, create_access_token)
is imported by auth_routes.py but is not part of the given sources; the route
embeddings take the hash and verify functions as parameters (they are black-box
collaborators at the route level), and the token service and password hasher
are modelled from the specification where a claim is about them directly.

The document store (MongoDB collections accessed through motor) is modelled
as a list of documents; find_one is List.find?, insert_one appends, and
update_one rewrites the first matching document, reporting a modified count
that is zero when the written document is identical to the stored one
(MongoDB modified_count semantics).
-/

/-- An HTTPException as raised by the FastAPI routes: a status code, a detail
string, and the optional WWW-Authenticate header value. -/
structure HTTPException where
  status_code : Nat
  detail : String
  www_authenticate : Option String := none
deriving DecidableEq, Repr

/-- Outcome of a route handler: either a success with an HTTP status code and
a response body, or an HTTPException. -/
inductive ApiResult (α : Type) where
  | ok (status : Nat) (value : α)
  | error (e : HTTPException)
deriving DecidableEq, Repr

/-- models.py AdminUser: the pydantic response/record model, including the
hashed_password field (it is a declared field of the model). -/
structure AdminUser where
  id : String
  username : String
  email : String
  hashed_password : String
  full_name : Option String := none
  is_active : Bool := true
  is_superuser : Bool := false
  created_at : Nat
deriving DecidableEq, Repr

/-- models.py AdminUserCreate: the registration request body. -/
structure AdminUserCreate where
  username : String
  email : String
  password : String
  full_name : Option String := none
deriving DecidableEq, Repr

/-- models.py AdminUserLogin: the login request body. -/
structure AdminUserLogin where
  username : String
  password : String
deriving DecidableEq, Repr

/-- A stored admin-user document. The store is schemaless, so fields that a
legacy record may lack are Option (in particular is_active, read back with
a default of true at the read site). -/
structure AdminDoc where
  id : String
  username : String
  email : String
  hashed_password : String
  full_name : Option String := none
  is_active : Option Bool := none
  is_superuser : Option Bool := none
  created_at : Option Nat := none
deriving DecidableEq, Repr

/-- insert_one(admin_obj.dict()): every field of the pydantic object is
present in the stored document. -/
def adminUserToDoc (u : AdminUser) : AdminDoc :=
  { id := u.id, username := u.username, email := u.email,
    hashed_password := u.hashed_password, full_name := u.full_name,
    is_active := some u.is_active, is_superuser := some u.is_superuser,
    created_at := some u.created_at }

/-- The AdminUser object built by register_admin from the request body: the
password is popped and replaced by its hash; id and created_at come from the
pydantic default factories (modelled as explicit parameters); is_active
defaults to true and is_superuser to false. -/
def mkAdminObj (hashF : String → String) (newId : String) (now : Nat)
    (user : AdminUserCreate) : AdminUser :=
  { id := newId, username := user.username, email := user.email,
    hashed_password := hashF user.password, full_name := user.full_name,
    is_active := true, is_superuser := false, created_at := now }

/-- auth_routes.py register_admin: reject 400 if the username exists, then
400 if the email exists, otherwise hash the password, insert the new record
and return it with 201.  The response model is AdminUser itself, so the
returned body is the full object, hashed_password field included. -/
def register_admin (st : List AdminDoc) (hashF : String → String)
    (newId : String) (now : Nat) (user : AdminUserCreate) :
    List AdminDoc × ApiResult AdminUser :=
  match st.find? (fun d => d.username == user.username) with
  | some _ => (st, .error ⟨400, "Username already registered", none⟩)
  | none =>
    match st.find? (fun d => d.email == user.email) with
    | some _ => (st, .error ⟨400, "Email already registered", none⟩)
    | none =>
      let admin_obj := mkAdminObj hashF newId now user
      (st ++ [adminUserToDoc admin_obj], .ok 201 admin_obj)

/-- Token claims embedded at login: sub (the username) and user_id. -/
structure TokenClaims where
  sub : String
  user_id : String
deriving DecidableEq, Repr

/-- A signed token payload: the claims plus issued-at and expires-at. -/
structure TokenPayload where
  claims : TokenClaims
  iat : Nat
  exp : Nat
deriving DecidableEq, Repr

/-- A mixing digest over a character list, parameterised by a salt/secret. -/
def mixDigest (salt : Nat) (p : List Char) : Nat :=
  p.foldl (fun a c => (a * 31 + c.toNat) % 1000003) (salt % 1000003)

/-- Modelled from the spec: auth.py is not among the given sources; per
section 4.2 the token service signs the payload with a server-held secret.
The signature is a deterministic digest of every payload field keyed by the
secret. -/
def signPayload (secret : Nat) (p : TokenPayload) : Nat :=
  (mixDigest secret p.claims.sub.data) * 1000003 +
    mixDigest secret p.claims.user_id.data + 31 * p.iat + 37 * p.exp

/-- A signed token: payload plus signature. -/
structure SignedToken where
  payload : TokenPayload
  sig : Nat
deriving DecidableEq, Repr

/-- Modelled from the spec: auth.py create_access_token is not among the
given sources; per section 4.2, issue embeds the claims, issued-at and
expires-at = issued-at + validity window, signed with the server secret.
Time is in minutes; login passes expires_delta = 1440 minutes (24 hours). -/
def create_access_token (secret : Nat) (now : Nat) (claims : TokenClaims)
    (expires_delta : Nat) : SignedToken :=
  let p : TokenPayload := { claims := claims, iat := now, exp := now + expires_delta }
  { payload := p, sig := signPayload secret p }

/-- Token verification errors, per section 4.2 of the spec. -/
inductive AuthError where
  | InvalidSignature
  | Expired
deriving DecidableEq, Repr

/-- Modelled from the spec: auth.py token verification is not among the
given sources; per section 4.2, verify checks the signature first (failing
with InvalidSignature), then expiry (failing with Expired when the current
time is at or past expires-at), then returns the embedded claims. -/
def verify_token (secret : Nat) (now : Nat) (t : SignedToken) :
    Except AuthError TokenClaims :=
  if signPayload secret t.payload ≠ t.sig then .error .InvalidSignature
  else if t.payload.exp ≤ now then .error .Expired
  else .ok t.payload.claims

/-- models.py Token: the login response body.  access_token is the signed
token (a self-contained string on the wire, modelled structurally). -/
structure TokenResponse where
  access_token : SignedToken
  token_type : String
deriving DecidableEq, Repr

/-- auth_routes.py login: look up by username (401 with a Bearer challenge
and the detail string shared with the wrong-password case if absent), verify
the password (same 401 on mismatch), reject 400 if the stored record is
inactive — read with user.get("is_active", True), so a missing flag counts
as active — then issue a 24-hour token with claims sub/user_id. -/
def login (st : List AdminDoc) (verifyF : String → String → Bool)
    (secret : Nat) (now : Nat) (creds : AdminUserLogin) :
    ApiResult TokenResponse :=
  match st.find? (fun d => d.username == creds.username) with
  | none => .error ⟨401, "Incorrect username or password", some "Bearer"⟩
  | some user =>
    if verifyF creds.password user.hashed_password = false then
      .error ⟨401, "Incorrect username or password", some "Bearer"⟩
    else if (user.is_active.getD true) = false then
      .error ⟨400, "Inactive user", none⟩
    else
      .ok 200 { access_token := create_access_token secret now
                  ⟨user.username, user.id⟩ 1440,
                token_type := "bearer" }

/-- auth_routes.py PasswordChange: the change-password request body. -/
structure PasswordChange where
  current_password : String
  new_password : String
deriving DecidableEq, Repr

/-- update_one on the admin_users collection: rewrite the hashed_password of
the first document whose username matches. -/
def updateFirstUser (st : List AdminDoc) (uname : String) (newHash : String) :
    List AdminDoc :=
  match st with
  | [] => []
  | d :: ds =>
    if d.username == uname then { d with hashed_password := newHash } :: ds
    else d :: updateFirstUser ds uname newHash

/-- auth_routes.py change_password: re-look-up the account (404 if missing),
verify the current password (400 on mismatch), reject a new password shorter
than 6 characters (400), reject a new password equal to the current one
(400), otherwise store the hash of the new password and acknowledge. -/
def change_password (st : List AdminDoc) (verifyF : String → String → Bool)
    (hashF : String → String) (current_username : String)
    (pd : PasswordChange) : List AdminDoc × ApiResult String :=
  match st.find? (fun d => d.username == current_username) with
  | none => (st, .error ⟨404, "User not found", none⟩)
  | some user =>
    if verifyF pd.current_password user.hashed_password = false then
      (st, .error ⟨400, "Current password is incorrect", none⟩)
    else if pd.new_password.length < 6 then
      (st, .error ⟨400, "New password must be at least 6 characters long", none⟩)
    else if pd.current_password == pd.new_password then
      (st, .error ⟨400, "New password must be different from current password", none⟩)
    else
      (updateFirstUser st current_username (hashF pd.new_password),
       .ok 200 "Password changed successfully")

/-- models.py BookingCreate: the public booking submission body. -/
structure BookingCreate where
  name : String
  email : String
  phone : String
  event_type : String
  date : String
  guests : Int
  message : Option String := none
deriving DecidableEq, Repr

/-- models.py Booking: the pydantic booking model; status defaults to
pending, id and created_at come from default factories. -/
structure Booking where
  id : String
  name : String
  email : String
  phone : String
  event_type : String
  date : String
  guests : Int
  message : Option String := none
  status : String := "pending"
  created_at : Nat
deriving DecidableEq, Repr

/-- A stored booking document.  updated_at is absent until a status update
writes it (the Booking pydantic model has no updated_at field, but the
status-update route sets one on the raw document). -/
structure BookingDoc where
  id : String
  name : String
  email : String
  phone : String
  event_type : String
  date : String
  guests : Int
  message : Option String := none
  status : String
  created_at : Nat
  updated_at : Option Nat := none
deriving DecidableEq, Repr

/-- insert_one(booking_obj.dict()): the stored document carries exactly the
fields of the pydantic object (and hence no updated_at yet). -/
def bookingToDoc (b : Booking) : BookingDoc :=
  { id := b.id, name := b.name, email := b.email, phone := b.phone,
    event_type := b.event_type, date := b.date, guests := b.guests,
    message := b.message, status := b.status, created_at := b.created_at,
    updated_at := none }

/-- Booking(**doc): reading a stored document back into the pydantic model
drops the extra updated_at key (pydantic ignores undeclared fields). -/
def docToBooking (d : BookingDoc) : Booking :=
  { id := d.id, name := d.name, email := d.email, phone := d.phone,
    event_type := d.event_type, date := d.date, guests := d.guests,
    message := d.message, status := d.status, created_at := d.created_at }

/-- The Booking object built by create_booking from the request body:
status is the pydantic default "pending". -/
def mkBookingObj (newId : String) (now : Nat) (b : BookingCreate) : Booking :=
  { id := newId, name := b.name, email := b.email, phone := b.phone,
    event_type := b.event_type, date := b.date, guests := b.guests,
    message := b.message, status := "pending", created_at := now }

/-- Outcome of the notification collaborator call inside create_booking:
it either returns a boolean or raises an exception. -/
inductive NotifyOutcome where
  | returns (b : Bool)
  | raises (msg : String)
deriving DecidableEq, Repr

/-- Storage effects performed by create_booking, in order. -/
inductive BookingEffect where
  | insertAttempt
  | notifyAttempt
deriving DecidableEq, Repr

/-- routes.py create_booking: build the Booking with status "pending",
insert it, then call send_booking_notification inside a try/except that
catches every exception and only logs it, and return the object with 201.
insertOk models whether the awaited insert_one succeeds; if it raises, the
exception propagates (500) and the notification is never attempted.  The
first component is the trace of attempted effects, in order. -/
def create_booking (st : List BookingDoc) (newId : String) (now : Nat)
    (b : BookingCreate) (insertOk : Bool) (notify : NotifyOutcome) :
    List BookingEffect × List BookingDoc × ApiResult Booking :=
  let booking_obj := mkBookingObj newId now b
  if insertOk = false then
    ([.insertAttempt], st, .error ⟨500, "Internal Server Error", none⟩)
  else
    match notify with
    | _ => ([.insertAttempt, .notifyAttempt],
            st ++ [bookingToDoc booking_obj], .ok 201 booking_obj)

/-- The status-validity test of update_booking_status:
status in ["pending", "approved", "rejected"]. -/
def validBookingStatus (s : String) : Bool :=
  s == "pending" || s == "approved" || s == "rejected"

/-- The document produced by the $set of update_booking_status: status set
to the requested value, updated_at set to the current time. -/
def setBookingStatus (d : BookingDoc) (s : String) (now : Nat) : BookingDoc :=
  { d with status := s, updated_at := some now }

/-- update_one on the bookings collection: rewrite the first document whose
id matches, returning the new store and modified_count.  MongoDB reports
modified_count 0 when no document matches and also when the matched
document is left byte-identical by the $set. -/
def updateOneBooking (st : List BookingDoc) (bid : String) (s : String)
    (now : Nat) : List BookingDoc × Nat :=
  match st with
  | [] => ([], 0)
  | d :: ds =>
    if d.id == bid then
      let dNew := setBookingStatus d s now
      (dNew :: ds, if dNew == d then 0 else 1)
    else
      let r := updateOneBooking ds bid s now
      (d :: r.1, r.2)

/-- routes.py update_booking_status: 400 "Invalid status" if the requested
status is outside the three-value enumeration (checked before any write);
otherwise update_one, then 404 "Booking not found" when modified_count is 0;
otherwise read the document back and return it with 200.  The final branch
models the uncaught crash that Booking(**None) would be if the read-back
found nothing (unreachable when modified_count is 1). -/
def update_booking_status (st : List BookingDoc) (booking_id : String)
    (stat : String) (now : Nat) : List BookingDoc × ApiResult Booking :=
  if validBookingStatus stat = false then
    (st, .error ⟨400, "Invalid status", none⟩)
  else
    let r := updateOneBooking st booking_id stat now
    if r.2 == 0 then
      (r.1, .error ⟨404, "Booking not found", none⟩)
    else
      match r.1.find? (fun d => d.id == booking_id) with
      | some d => (r.1, .ok 200 (docToBooking d))
      | none => (r.1, .error ⟨500, "Internal Server Error", none⟩)

/-- email_service.py SMTP configuration, read from the environment with
empty-string defaults. -/
structure SmtpConfig where
  smtp_host : String
  smtp_username : String
  smtp_password : String
  smtp_from_email : String
  notification_email : String
deriving DecidableEq, Repr

/-- Outcome of the SMTP transmission block inside send_email (connect,
optional starttls, login, sendmail): it either delivers or raises. -/
inductive TransmitOutcome where
  | delivered
  | smtpAuthError (msg : String)
  | smtpError (msg : String)
  | otherError (msg : String)
deriving DecidableEq, Repr

/-- The configuration guard of send_email:
all([SMTP_HOST, SMTP_USERNAME, SMTP_PASSWORD, SMTP_FROM_EMAIL]) —
an empty string is falsy in Python. -/
def smtpConfigured (cfg : SmtpConfig) : Bool :=
  !(cfg.smtp_host == "") && !(cfg.smtp_username == "") &&
    !(cfg.smtp_password == "") && !(cfg.smtp_from_email == "")

/-- email_service.py send_email: return False without attempting
transmission when the SMTP configuration is incomplete; otherwise attempt
the transmission, catching SMTPAuthenticationError, SMTPException and every
other Exception and returning False; return True only on delivery.  The
second component records whether a transmission was attempted. -/
def send_email (cfg : SmtpConfig) (to_email : String)
    (transmit : TransmitOutcome) : Bool × Bool :=
  if smtpConfigured cfg = false then (false, false)
  else
    match transmit with
    | .delivered => (true, true)
    | .smtpAuthError _ => (false, true)
    | .smtpError _ => (false, true)
    | .otherError _ => (false, true)

/-- email_service.py send_booking_notification: return False without
attempting transmission when NOTIFICATION_EMAIL is unset (empty string);
otherwise build the message and delegate to send_email with
NOTIFICATION_EMAIL as recipient. -/
def send_booking_notification (cfg : SmtpConfig)
    (transmit : TransmitOutcome) : Bool × Bool :=
  if cfg.notification_email == "" then (false, false)
  else send_email cfg cfg.notification_email transmit

/-- The decimal digit character for d (0 ≤ d ≤ 9). -/
def digitChar (d : Nat) : Char := Char.ofNat (48 + d)

/-- Decimal representation of a natural number as a character list. -/
def decDigits (n : Nat) : List Char :=
  if h : n < 10 then [digitChar n]
  else decDigits (n / 10) ++ [digitChar (n % 10)]
termination_by n
decreasing_by
  exact Nat.div_lt_self (by omega) (by omega)

/-- Decode one decimal digit character; none when not a digit. -/
def charDigit (c : Char) : Option Nat :=
  if 48 ≤ c.toNat ∧ c.toNat ≤ 57 then some (c.toNat - 48) else none

/-- Left-to-right accumulator decoding of a decimal digit string. -/
def decodeDigitsAux (acc : Nat) : List Char → Option Nat
  | [] => some acc
  | c :: cs =>
    match charDigit c with
    | some d => decodeDigitsAux (acc * 10 + d) cs
    | none => none

/-- Decode a non-empty decimal digit string; none when empty or malformed. -/
def decodeDigits : List Char → Option Nat
  | [] => none
  | l => decodeDigitsAux 0 l

/-- Split a character list at the first separator character, yielding the
part before and the part after; none when no separator occurs. -/
def splitAtDollar : List Char → Option (List Char × List Char)
  | [] => none
  | c :: cs =>
    if c = '$' then some ([], cs)
    else
      match splitAtDollar cs with
      | some r => some (c :: r.1, r.2)
      | none => none

/-- Modelled from the spec: auth.py get_password_hash is not among the given
sources; per section 4.1 the hasher produces a randomly-salted digest whose
salt and parameters are embedded in the output string.  The random salt is
an explicit parameter (the determinization of the randomness); the output
embeds the salt in decimal, a separator, and the keyed digest of the
plaintext in decimal. -/
def get_password_hash (salt : Nat) (plaintext : String) : String :=
  ⟨decDigits salt ++ '$' :: decDigits (mixDigest salt plaintext.data)⟩

/-- Modelled from the spec: auth.py verify_password is not among the given
sources; per section 4.1, verify re-hashes the plaintext with the salt and
parameters embedded in the stored hash and compares, returning a boolean
non-match (never throwing) on malformed stored-hash input. -/
def verify_password (plaintext : String) (stored : String) : Bool :=
  match splitAtDollar stored.data with
  | none => false
  | some r =>
    match decodeDigits r.1, decodeDigits r.2 with
    | some salt, some dig => mixDigest salt plaintext.data == dig
    | _, _ => false

theorem find?_append_of_none {α : Type} (l₁ l₂ : List α) (p : α → Bool)
    (h : l₁.find? p = none) : (l₁ ++ l₂).find? p = l₂.find? p := by
  rw [List.find?_append, h, Option.none_or]

/-- C2: a booking submission whose storage insert succeeds returns the
persisted BookingEnquiry with 201 and status "pending" regardless of the
notification outcome; the notification exception is absorbed and the
notification is attempted only after the persist (trace order). -/
theorem create_booking_notify_immaterial (st : List BookingDoc)
    (newId : String) (now : Nat) (b : BookingCreate) (n1 n2 : NotifyOutcome) :
    create_booking st newId now b true n1 = create_booking st newId now b true n2 ∧
    (create_booking st newId now b true n1).2.2 = .ok 201 (mkBookingObj newId now b) ∧
    (mkBookingObj newId now b).status = "pending" ∧
    (create_booking st newId now b true n1).2.1 =
      st ++ [bookingToDoc (mkBookingObj newId now b)] ∧
    (create_booking st newId now b true n1).1 = [.insertAttempt, .notifyAttempt] := by
  refine ⟨?_, ?_, rfl, ?_, ?_⟩ <;> cases n1 <;> cases n2 <;> rfl

/-- C9: the notification sender returns a boolean and absorbs every failure:
with incomplete SMTP configuration send_email returns False without
attempting transmission; with an unset NOTIFICATION_EMAIL
send_booking_notification returns False without attempting transmission;
any transmission failure yields False; True is returned only on delivery. -/
theorem send_email_absorbs_failures (cfg : SmtpConfig) (to_email : String)
    (t : TransmitOutcome) :
    (smtpConfigured cfg = false → send_email cfg to_email t = (false, false)) ∧
    (cfg.notification_email = "" → send_booking_notification cfg t = (false, false)) ∧
    (t ≠ .delivered → (send_email cfg to_email t).1 = false ∧
      (send_booking_notification cfg t).1 = false) ∧
    ((send_email cfg to_email t).1 = true → t = .delivered) := by
  refine ⟨?_, ?_, ?_, ?_⟩
  · intro h; simp [send_email, h]
  · intro h; simp [send_booking_notification, h]
  · intro ht
    have hse : ∀ dst : String, (send_email cfg dst t).1 = false := by
      intro dst
      unfold send_email
      split
      · rfl
      · cases t
        · exact absurd rfl ht
        · rfl
        · rfl
        · rfl
    refine ⟨hse to_email, ?_⟩
    unfold send_booking_notification
    split
    · rfl
    · exact hse cfg.notification_email
  · intro h
    cases t with
    | delivered => rfl
    | smtpAuthError m => exfalso; revert h; unfold send_email; split <;> simp
    | smtpError m => exfalso; revert h; unfold send_email; split <;> simp
    | otherError m => exfalso; revert h; unfold send_email; split <;> simp

theorem send_email_absorbs_failures_witness :
    send_email ⟨"", "", "", "", ""⟩ "x@y" (.otherError "boom") = (false, false) ∧
    send_booking_notification ⟨"smtp.example", "u", "pw", "f@x", ""⟩
      (.smtpError "fail") = (false, false) ∧
    (send_email ⟨"smtp.example", "u", "pw", "f@x", "n@x"⟩ "n@x"
      (.smtpAuthError "denied")).1 = false := by
  refine ⟨?_, ?_, ?_⟩
  · exact (send_email_absorbs_failures ⟨"", "", "", "", ""⟩ "x@y"
      (.otherError "boom")).1 rfl
  · exact (send_email_absorbs_failures ⟨"smtp.example", "u", "pw", "f@x", ""⟩ "n@x"
      (.smtpError "fail")).2.1 rfl
  · exact ((send_email_absorbs_failures ⟨"smtp.example", "u", "pw", "f@x", "n@x"⟩
      "n@x" (.smtpAuthError "denied")).2.2.1 (by simp)).1

/-- C10: a stored record lacking the is_active field is treated as active at
login: with correct credentials the login succeeds and issues a token. -/
theorem login_missing_is_active_defaults_true (st : List AdminDoc)
    (verifyF : String → String → Bool) (secret now : Nat)
    (creds : AdminUserLogin) (u : AdminDoc)
    (hfind : st.find? (fun d => d.username == creds.username) = some u)
    (hactive : u.is_active = none)
    (hverify : verifyF creds.password u.hashed_password = true) :
    login st verifyF secret now creds =
      .ok 200 { access_token := create_access_token secret now
                  ⟨u.username, u.id⟩ 1440,
                token_type := "bearer" } := by
  simp [login, hfind, hverify, hactive]

theorem login_missing_is_active_defaults_true_witness :
    login [⟨"id1", "alice", "a@x", "HASH", none, none, none, none⟩]
      (fun _ _ => true) 0 0 ⟨"alice", "pw"⟩ =
      .ok 200 { access_token := create_access_token 0 0 ⟨"alice", "id1"⟩ 1440,
                token_type := "bearer" } :=
  login_missing_is_active_defaults_true
    [⟨"id1", "alice", "a@x", "HASH", none, none, none, none⟩]
    (fun _ _ => true) 0 0 ⟨"alice", "pw"⟩
    ⟨"id1", "alice", "a@x", "HASH", none, none, none, none⟩ rfl rfl rfl

/-- C3: login with a nonexistent username and login with an existing
username but non-verifying password produce identical failures: the same
401 status, the same detail string, and the same Bearer challenge. -/
theorem login_enumeration_resistant (st : List AdminDoc)
    (verifyF : String → String → Bool) (secret now : Nat)
    (c1 c2 : AdminUserLogin) (u2 : AdminDoc)
    (h1 : st.find? (fun d => d.username == c1.username) = none)
    (h2 : st.find? (fun d => d.username == c2.username) = some u2)
    (h3 : verifyF c2.password u2.hashed_password = false) :
    login st verifyF secret now c1 =
      .error ⟨401, "Incorrect username or password", some "Bearer"⟩ ∧
    login st verifyF secret now c2 =
      .error ⟨401, "Incorrect username or password", some "Bearer"⟩ ∧
    login st verifyF secret now c1 = login st verifyF secret now c2 := by
  have e1 : login st verifyF secret now c1 =
      .error ⟨401, "Incorrect username or password", some "Bearer"⟩ := by
    simp [login, h1]
  have e2 : login st verifyF secret now c2 =
      .error ⟨401, "Incorrect username or password", some "Bearer"⟩ := by
    simp [login, h2, h3]
  exact ⟨e1, e2, e1.trans e2.symm⟩

theorem login_enumeration_resistant_witness :
    login [⟨"id1", "alice", "a@x", "HASH", none, some true, some false, some 0⟩]
      (fun _ _ => false) 0 0 ⟨"bob", "pw"⟩ =
      .error ⟨401, "Incorrect username or password", some "Bearer"⟩ ∧
    login [⟨"id1", "alice", "a@x", "HASH", none, some true, some false, some 0⟩]
      (fun _ _ => false) 0 0 ⟨"alice", "wrong"⟩ =
      .error ⟨401, "Incorrect username or password", some "Bearer"⟩ ∧
    login [⟨"id1", "alice", "a@x", "HASH", none, some true, some false, some 0⟩]
      (fun _ _ => false) 0 0 ⟨"bob", "pw"⟩ =
    login [⟨"id1", "alice", "a@x", "HASH", none, some true, some false, some 0⟩]
      (fun _ _ => false) 0 0 ⟨"alice", "wrong"⟩ :=
  login_enumeration_resistant
    [⟨"id1", "alice", "a@x", "HASH", none, some true, some false, some 0⟩]
    (fun _ _ => false) 0 0 ⟨"bob", "pw"⟩ ⟨"alice", "wrong"⟩
    ⟨"id1", "alice", "a@x", "HASH", none, some true, some false, some 0⟩
    rfl rfl rfl

theorem updateFirstUser_find? (st : List AdminDoc) (uname newHash : String)
    (user : AdminDoc)
    (hfind : st.find? (fun d => d.username == uname) = some user) :
    (updateFirstUser st uname newHash).find? (fun d => d.username == uname) =
      some { user with hashed_password := newHash } := by
  induction st with
  | nil => simp at hfind
  | cons d ds ih =>
    rw [List.find?_cons] at hfind
    by_cases hb : (d.username == uname) = true
    · simp only [hb] at hfind
      injection hfind with hfind
      subst hfind
      have hu : updateFirstUser (d :: ds) uname newHash =
          { d with hashed_password := newHash } :: ds := by
        simp [updateFirstUser, hb]
      rw [hu, List.find?_cons]
      simp [hb]
    · have hb2 : (d.username == uname) = false := by simpa using hb
      simp only [hb2] at hfind
      have hu : updateFirstUser (d :: ds) uname newHash =
          d :: updateFirstUser ds uname newHash := by
        simp [updateFirstUser, hb2]
      rw [hu, List.find?_cons]
      simp only [hb2]
      exact ih hfind

/-- C5: registering an already-taken username fails 400 with detail
"Username already registered" and leaves the store unchanged; the first
registration of a fresh username/email succeeds with 201; a registration
whose email is already stored fails 400 before anything is persisted. -/
theorem register_duplicate_rejected (st : List AdminDoc)
    (hashF : String → String) (id1 id2 : String) (t1 t2 : Nat)
    (u1 u2 : AdminUserCreate)
    (hu : st.find? (fun d => d.username == u1.username) = none)
    (he : st.find? (fun d => d.email == u1.email) = none)
    (hsame : u2.username = u1.username) :
    (register_admin st hashF id1 t1 u1).2 = .ok 201 (mkAdminObj hashF id1 t1 u1) ∧
    register_admin (register_admin st hashF id1 t1 u1).1 hashF id2 t2 u2 =
      ((register_admin st hashF id1 t1 u1).1,
        .error ⟨400, "Username already registered", none⟩) ∧
    (∀ (u3 : AdminUserCreate) (d : AdminDoc) (id3 : String) (t3 : Nat),
      st.find? (fun x => x.username == u3.username) = none →
      st.find? (fun x => x.email == u3.email) = some d →
      register_admin st hashF id3 t3 u3 =
        (st, .error ⟨400, "Email already registered", none⟩)) := by
  have hfirst : register_admin st hashF id1 t1 u1 =
      (st ++ [adminUserToDoc (mkAdminObj hashF id1 t1 u1)],
        .ok 201 (mkAdminObj hashF id1 t1 u1)) := by
    simp [register_admin, hu, he]
  refine ⟨by rw [hfirst], ?_, ?_⟩
  · rw [hfirst]
    have hpred : (fun d : AdminDoc => d.username == u2.username) =
        (fun d : AdminDoc => d.username == u1.username) := by
      funext d; rw [hsame]
    have hdup : (st ++ [adminUserToDoc (mkAdminObj hashF id1 t1 u1)]).find?
        (fun d => d.username == u2.username) =
        some (adminUserToDoc (mkAdminObj hashF id1 t1 u1)) := by
      rw [hpred, find?_append_of_none _ _ _ hu]
      simp [adminUserToDoc, mkAdminObj]
    simp [register_admin, hdup]
  · intro u3 d id3 t3 h3u h3e
    simp [register_admin, h3u, h3e]

theorem register_duplicate_rejected_witness :
    (register_admin [⟨"id0", "carol", "c@x", "H0", none, some true, some false, some 0⟩]
      (fun p => String.append "h-" p) "id1" 1
      ⟨"alice", "a@x", "secret123", none⟩).2 =
      .ok 201 (mkAdminObj (fun p => String.append "h-" p) "id1" 1
        ⟨"alice", "a@x", "secret123", none⟩) ∧
    register_admin
      (register_admin [⟨"id0", "carol", "c@x", "H0", none, some true, some false, some 0⟩]
        (fun p => String.append "h-" p) "id1" 1
        ⟨"alice", "a@x", "secret123", none⟩).1
      (fun p => String.append "h-" p) "id2" 2 ⟨"alice", "b@y", "pw2", none⟩ =
      ((register_admin [⟨"id0", "carol", "c@x", "H0", none, some true, some false, some 0⟩]
        (fun p => String.append "h-" p) "id1" 1
        ⟨"alice", "a@x", "secret123", none⟩).1,
        .error ⟨400, "Username already registered", none⟩) ∧
    register_admin [⟨"id0", "carol", "c@x", "H0", none, some true, some false, some 0⟩]
      (fun p => String.append "h-" p) "id3" 3 ⟨"dave", "c@x", "pw3", none⟩ =
      ([⟨"id0", "carol", "c@x", "H0", none, some true, some false, some 0⟩],
        .error ⟨400, "Email already registered", none⟩) := by
  have h := register_duplicate_rejected
    [⟨"id0", "carol", "c@x", "H0", none, some true, some false, some 0⟩]
    (fun p => String.append "h-" p) "id1" "id2" 1 2
    ⟨"alice", "a@x", "secret123", none⟩ ⟨"alice", "b@y", "pw2", none⟩
    rfl rfl rfl
  exact ⟨h.1, h.2.1, h.2.2 ⟨"dave", "c@x", "pw3", none⟩
    ⟨"id0", "carol", "c@x", "H0", none, some true, some false, some 0⟩
    "id3" 3 rfl rfl⟩

/-- C4: for an authenticated user whose account exists, change-password
fails with 400 and leaves the store unchanged when the current password does
not verify, when the new password is shorter than 6 characters, or when the
new password equals the current one; only when all three checks pass is the
stored hash replaced by the hash of the new password. -/
theorem change_password_guards (st : List AdminDoc)
    (verifyF : String → String → Bool) (hashF : String → String)
    (uname : String) (pd : PasswordChange) (user : AdminDoc)
    (hfind : st.find? (fun d => d.username == uname) = some user) :
    (verifyF pd.current_password user.hashed_password = false →
      change_password st verifyF hashF uname pd =
        (st, .error ⟨400, "Current password is incorrect", none⟩)) ∧
    (verifyF pd.current_password user.hashed_password = true →
      pd.new_password.length < 6 →
      change_password st verifyF hashF uname pd =
        (st, .error ⟨400, "New password must be at least 6 characters long", none⟩)) ∧
    (verifyF pd.current_password user.hashed_password = true →
      ¬ pd.new_password.length < 6 →
      pd.current_password = pd.new_password →
      change_password st verifyF hashF uname pd =
        (st, .error ⟨400, "New password must be different from current password", none⟩)) ∧
    (verifyF pd.current_password user.hashed_password = true →
      ¬ pd.new_password.length < 6 →
      pd.current_password ≠ pd.new_password →
      change_password st verifyF hashF uname pd =
        (updateFirstUser st uname (hashF pd.new_password),
          .ok 200 "Password changed successfully") ∧
      (updateFirstUser st uname (hashF pd.new_password)).find?
          (fun d => d.username == uname) =
        some { user with hashed_password := hashF pd.new_password }) := by
  refine ⟨?_, ?_, ?_, ?_⟩
  · intro hv; simp [change_password, hfind, hv]
  · intro hv hlen; simp [change_password, hfind, hv, hlen]
  · intro hv hlen heq
    have hbeq : (pd.current_password == pd.new_password) = true := by simp [heq]
    simp [change_password, hfind, hv, hlen, hbeq]
  · intro hv hlen hne
    have hbne : (pd.current_password == pd.new_password) = false := by
      simpa using hne
    refine ⟨by simp [change_password, hfind, hv, hlen, hbne], ?_⟩
    exact updateFirstUser_find? st uname (hashF pd.new_password) user hfind

theorem change_password_guards_witness :
    change_password [⟨"id1", "alice", "a@x", "HOLD", none, some true, some false, some 0⟩]
      (fun p _ => p == "current1") (fun s => String.append "h-" s) "alice"
      ⟨"wrong", "newpass7"⟩ =
      ([⟨"id1", "alice", "a@x", "HOLD", none, some true, some false, some 0⟩],
        .error ⟨400, "Current password is incorrect", none⟩) ∧
    change_password [⟨"id1", "alice", "a@x", "HOLD", none, some true, some false, some 0⟩]
      (fun p _ => p == "current1") (fun s => String.append "h-" s) "alice"
      ⟨"current1", "abc"⟩ =
      ([⟨"id1", "alice", "a@x", "HOLD", none, some true, some false, some 0⟩],
        .error ⟨400, "New password must be at least 6 characters long", none⟩) ∧
    change_password [⟨"id1", "alice", "a@x", "HOLD", none, some true, some false, some 0⟩]
      (fun p _ => p == "current1") (fun s => String.append "h-" s) "alice"
      ⟨"current1", "current1"⟩ =
      ([⟨"id1", "alice", "a@x", "HOLD", none, some true, some false, some 0⟩],
        .error ⟨400, "New password must be different from current password", none⟩) ∧
    change_password [⟨"id1", "alice", "a@x", "HOLD", none, some true, some false, some 0⟩]
      (fun p _ => p == "current1") (fun s => String.append "h-" s) "alice"
      ⟨"current1", "newpass7"⟩ =
      ([⟨"id1", "alice", "a@x", String.append "h-" "newpass7", none, some true, some false, some 0⟩],
        .ok 200 "Password changed successfully") := by
  have h1 := change_password_guards
    [⟨"id1", "alice", "a@x", "HOLD", none, some true, some false, some 0⟩]
    (fun p _ => p == "current1") (fun s => String.append "h-" s) "alice"
    ⟨"wrong", "newpass7"⟩
    ⟨"id1", "alice", "a@x", "HOLD", none, some true, some false, some 0⟩ rfl
  have h2 := change_password_guards
    [⟨"id1", "alice", "a@x", "HOLD", none, some true, some false, some 0⟩]
    (fun p _ => p == "current1") (fun s => String.append "h-" s) "alice"
    ⟨"current1", "abc"⟩
    ⟨"id1", "alice", "a@x", "HOLD", none, some true, some false, some 0⟩ rfl
  have h3 := change_password_guards
    [⟨"id1", "alice", "a@x", "HOLD", none, some true, some false, some 0⟩]
    (fun p _ => p == "current1") (fun s => String.append "h-" s) "alice"
    ⟨"current1", "current1"⟩
    ⟨"id1", "alice", "a@x", "HOLD", none, some true, some false, some 0⟩ rfl
  have h4 := change_password_guards
    [⟨"id1", "alice", "a@x", "HOLD", none, some true, some false, some 0⟩]
    (fun p _ => p == "current1") (fun s => String.append "h-" s) "alice"
    ⟨"current1", "newpass7"⟩
    ⟨"id1", "alice", "a@x", "HOLD", none, some true, some false, some 0⟩ rfl
  exact ⟨h1.1 rfl, h2.2.1 rfl (by decide), h3.2.2.1 rfl (by decide) rfl,
    (h4.2.2.2 rfl (by decide) (by decide)).1⟩

/-- C7: a login token issued at time now with the 1440-minute window used by
login expires exactly at issuance + 24 hours; verifying immediately after
issuance returns the embedded claims; verifying at or after issuance + 24h
fails with Expired. -/
theorem token_24h_validity_window (secret now : Nat) (claims : TokenClaims) :
    (create_access_token secret now claims 1440).payload.exp =
      (create_access_token secret now claims 1440).payload.iat + 1440 ∧
    verify_token secret now (create_access_token secret now claims 1440) =
      .ok claims ∧
    ∀ later : Nat, now + 1440 ≤ later →
      verify_token secret later (create_access_token secret now claims 1440) =
        .error .Expired := by
  refine ⟨rfl, ?_, ?_⟩
  · unfold verify_token create_access_token
    simp only [ne_eq, not_true_eq_false]
    rw [if_neg (by simp)]
    rw [if_neg (by omega)]
  · intro later hle
    unfold verify_token create_access_token
    rw [if_neg (by simp)]
    rw [if_pos (by simpa using hle)]

theorem token_24h_validity_window_witness :
    (create_access_token 1 0 ⟨"alice", "id1"⟩ 1440).payload.exp =
      (create_access_token 1 0 ⟨"alice", "id1"⟩ 1440).payload.iat + 1440 ∧
    verify_token 1 0 (create_access_token 1 0 ⟨"alice", "id1"⟩ 1440) =
      .ok ⟨"alice", "id1"⟩ ∧
    verify_token 1 1440 (create_access_token 1 0 ⟨"alice", "id1"⟩ 1440) =
      .error .Expired := by
  have h := token_24h_validity_window 1 0 ⟨"alice", "id1"⟩
  exact ⟨h.1, h.2.1, h.2.2 1440 (by omega)⟩

theorem updateOneBooking_no_match (st : List BookingDoc) (bid s : String)
    (now : Nat) (h : st.find? (fun d => d.id == bid) = none) :
    updateOneBooking st bid s now = (st, 0) := by
  induction st with
  | nil => rfl
  | cons d ds ih =>
    rw [List.find?_cons] at h
    by_cases hb : (d.id == bid) = true
    · simp [hb] at h
    · have hb2 : (d.id == bid) = false := by simpa using hb
      simp only [hb2] at h
      simp [updateOneBooking, hb2, ih h]

theorem updateOneBooking_decomp (pre post : List BookingDoc) (d : BookingDoc)
    (bid s : String) (now : Nat)
    (hpre : pre.find? (fun x => x.id == bid) = none) (hd : d.id = bid) :
    updateOneBooking (pre ++ d :: post) bid s now =
      (pre ++ setBookingStatus d s now :: post,
        if setBookingStatus d s now == d then 0 else 1) := by
  induction pre with
  | nil =>
    have hb : (d.id == bid) = true := by simp [hd]
    simp [updateOneBooking, hb]
  | cons e es ih =>
    rw [List.find?_cons] at hpre
    by_cases hb : (e.id == bid) = true
    · simp [hb] at hpre
    · have hb2 : (e.id == bid) = false := by simpa using hb
      simp only [hb2] at hpre
      simp [updateOneBooking, hb2, ih hpre]

theorem setBookingStatus_eq_iff (d : BookingDoc) (s : String) (now : Nat) :
    setBookingStatus d s now = d ↔ d.status = s ∧ d.updated_at = some now := by
  constructor
  · intro h
    refine ⟨?_, ?_⟩
    · have := congrArg BookingDoc.status h
      simpa [setBookingStatus] using this.symm
    · have := congrArg BookingDoc.updated_at h
      simpa [setBookingStatus] using this.symm
  · rintro ⟨h1, h2⟩
    cases d
    simp_all [setBookingStatus]

/-- C6 amended: an invalid requested status fails 400 before any write; a
valid status with no matching enquiry fails 404 with the store unchanged; a
valid status with a matching enquiry whose document the $set actually
changes (the requested status differs from the stored one, or the stored
updated_at differs from the update time) sets the stored status and returns
the updated enquiry with 200; when the $set is a no-op on the matched
document (same status, same updated_at) the route reports modified_count 0
and fails 404 even though the enquiry exists. -/
theorem update_booking_status_cases (st : List BookingDoc) (bid stat : String)
    (now : Nat) :
    (validBookingStatus stat = false →
      update_booking_status st bid stat now =
        (st, .error ⟨400, "Invalid status", none⟩)) ∧
    (validBookingStatus stat = true →
      st.find? (fun d => d.id == bid) = none →
      update_booking_status st bid stat now =
        (st, .error ⟨404, "Booking not found", none⟩)) ∧
    (∀ pre d post,
      validBookingStatus stat = true →
      st = pre ++ d :: post →
      pre.find? (fun x => x.id == bid) = none →
      d.id = bid →
      (d.status ≠ stat ∨ d.updated_at ≠ some now) →
      update_booking_status st bid stat now =
        (pre ++ setBookingStatus d stat now :: post,
          .ok 200 (docToBooking (setBookingStatus d stat now)))) ∧
    (∀ pre d post,
      validBookingStatus stat = true →
      st = pre ++ d :: post →
      pre.find? (fun x => x.id == bid) = none →
      d.id = bid →
      d.status = stat → d.updated_at = some now →
      update_booking_status st bid stat now =
        (st, .error ⟨404, "Booking not found", none⟩)) := by
  refine ⟨?_, ?_, ?_, ?_⟩
  · intro hv; simp [update_booking_status, hv]
  · intro hv hnone
    simp [update_booking_status, hv, updateOneBooking_no_match st bid stat now hnone]
  · intro pre d post hv hst hpre hd hchanged
    subst hst
    have hne : setBookingStatus d stat now ≠ d := by
      rw [Ne, setBookingStatus_eq_iff]
      rcases hchanged with h | h
      · exact fun hc => h hc.1
      · exact fun hc => h hc.2
    have hbne : (setBookingStatus d stat now == d) = false := by
      simpa using hne
    have hup := updateOneBooking_decomp pre post d bid stat now hpre hd
    have hmod : (if setBookingStatus d stat now == d then (0 : Nat) else 1) = 1 := by
      simp [hbne]
    rw [hmod] at hup
    have hfind2 : (pre ++ setBookingStatus d stat now :: post).find?
        (fun x => x.id == bid) = some (setBookingStatus d stat now) := by
      rw [find?_append_of_none _ _ _ hpre, List.find?_cons]
      have : (setBookingStatus d stat now).id = bid := hd
      simp [this]
    simp [update_booking_status, hv, hup, hfind2]
  · intro pre d post hv hst hpre hd hs hupd
    subst hst
    have heq : setBookingStatus d stat now = d :=
      (setBookingStatus_eq_iff d stat now).2 ⟨hs, hupd⟩
    have hup := updateOneBooking_decomp pre post d bid stat now hpre hd
    rw [heq] at hup
    have hmod : (if d == d then (0 : Nat) else 1) = 0 := by simp
    rw [hmod] at hup
    simp [update_booking_status, hv, hup]

theorem update_booking_status_claim_false :
    validBookingStatus "approved" = true ∧
    (([⟨"b1", "n", "e@x", "p", "party", "2026-01-01", 10, none, "approved", 0,
        some 5⟩] : List BookingDoc).find? (fun x => x.id == "b1")).isSome = true ∧
    update_booking_status
      [⟨"b1", "n", "e@x", "p", "party", "2026-01-01", 10, none, "approved", 0,
        some 5⟩] "b1" "approved" 5 =
      ([⟨"b1", "n", "e@x", "p", "party", "2026-01-01", 10, none, "approved", 0,
        some 5⟩], .error ⟨404, "Booking not found", none⟩) := by
  refine ⟨rfl, rfl, ?_⟩
  decide

theorem update_booking_status_cases_witness :
    update_booking_status
      [⟨"b1", "n", "e@x", "p", "party", "2026-01-01", 10, none, "pending", 0,
        none⟩] "b1" "archived" 7 =
      ([⟨"b1", "n", "e@x", "p", "party", "2026-01-01", 10, none, "pending", 0,
        none⟩], .error ⟨400, "Invalid status", none⟩) ∧
    update_booking_status
      [⟨"b1", "n", "e@x", "p", "party", "2026-01-01", 10, none, "pending", 0,
        none⟩] "nope" "approved" 7 =
      ([⟨"b1", "n", "e@x", "p", "party", "2026-01-01", 10, none, "pending", 0,
        none⟩], .error ⟨404, "Booking not found", none⟩) ∧
    update_booking_status
      [⟨"b1", "n", "e@x", "p", "party", "2026-01-01", 10, none, "pending", 0,
        none⟩] "b1" "approved" 7 =
      ([⟨"b1", "n", "e@x", "p", "party", "2026-01-01", 10, none, "approved", 0,
        some 7⟩],
        .ok 200 ⟨"b1", "n", "e@x", "p", "party", "2026-01-01", 10, none,
          "approved", 0⟩) := by
  have h1 := update_booking_status_cases
    [⟨"b1", "n", "e@x", "p", "party", "2026-01-01", 10, none, "pending", 0, none⟩]
    "b1" "archived" 7
  have h2 := update_booking_status_cases
    [⟨"b1", "n", "e@x", "p", "party", "2026-01-01", 10, none, "pending", 0, none⟩]
    "nope" "approved" 7
  have h3 := update_booking_status_cases
    [⟨"b1", "n", "e@x", "p", "party", "2026-01-01", 10, none, "pending", 0, none⟩]
    "b1" "approved" 7
  refine ⟨h1.1 rfl, h2.2.1 rfl rfl, ?_⟩
  have := h3.2.2.1 []
    ⟨"b1", "n", "e@x", "p", "party", "2026-01-01", 10, none, "pending", 0, none⟩
    [] rfl rfl rfl rfl (Or.inl (by decide))
  simpa [setBookingStatus, docToBooking] using this

theorem string_data_mk (l : List Char) : (⟨l⟩ : String).data = l := rfl

theorem charDigit_digitChar (d : Nat) (h : d < 10) :
    charDigit (digitChar d) = some d := by
  interval_cases d <;> decide

theorem digitChar_ne_dollar (d : Nat) (h : d < 10) : digitChar d ≠ '$' := by
  interval_cases d <;> decide

theorem decDigits_eq_low (n : Nat) (h : n < 10) : decDigits n = [digitChar n] := by
  unfold decDigits
  rw [dif_pos h]

theorem decDigits_eq_high (n : Nat) (h : ¬ n < 10) :
    decDigits n = decDigits (n / 10) ++ [digitChar (n % 10)] := by
  conv_lhs => rw [decDigits]
  rw [dif_neg h]

theorem decDigits_all_digits (n : Nat) :
    ∀ c ∈ decDigits n, ∃ d, d < 10 ∧ c = digitChar d := by
  induction n using Nat.strong_induction_on with
  | _ n ih =>
    by_cases h : n < 10
    · rw [decDigits_eq_low n h]
      intro c hc
      simp only [List.mem_singleton] at hc
      exact ⟨n, h, hc⟩
    · rw [decDigits_eq_high n h]
      intro c hc
      rcases List.mem_append.1 hc with h1 | h2
      · exact ih (n / 10) (Nat.div_lt_self (by omega) (by omega)) c h1
      · simp only [List.mem_singleton] at h2
        exact ⟨n % 10, Nat.mod_lt _ (by omega), h2⟩

theorem decDigits_no_dollar (n : Nat) : ∀ c ∈ decDigits n, c ≠ '$' := by
  intro c hc
  obtain ⟨d, hd, rfl⟩ := decDigits_all_digits n c hc
  exact digitChar_ne_dollar d hd

theorem decDigits_ne_nil (n : Nat) : decDigits n ≠ [] := by
  by_cases h : n < 10
  · rw [decDigits_eq_low n h]; simp
  · rw [decDigits_eq_high n h]; simp

theorem splitAtDollar_of_append (xs ys : List Char) (h : ∀ c ∈ xs, c ≠ '$') :
    splitAtDollar (xs ++ '$' :: ys) = some (xs, ys) := by
  induction xs with
  | nil => rfl
  | cons c cs ih =>
    have hc : c ≠ '$' := h c (List.mem_cons_self c cs)
    have ih2 := ih (fun x hx => h x (List.mem_cons_of_mem c hx))
    simp [splitAtDollar, hc, ih2]

theorem decodeDigitsAux_append (acc : Nat) (xs ys : List Char) :
    decodeDigitsAux acc (xs ++ ys) =
      (decodeDigitsAux acc xs).bind fun m => decodeDigitsAux m ys := by
  induction xs generalizing acc with
  | nil => rfl
  | cons c cs ih =>
    simp only [List.cons_append, decodeDigitsAux]
    cases charDigit c with
    | some d => exact ih (acc * 10 + d)
    | none => rfl

theorem decodeDigitsAux_decDigits (n : Nat) :
    ∀ acc, decodeDigitsAux acc (decDigits n) =
      some (acc * 10 ^ (decDigits n).length + n) := by
  induction n using Nat.strong_induction_on with
  | _ n ih =>
    intro acc
    by_cases h : n < 10
    · rw [decDigits_eq_low n h]
      simp only [decodeDigitsAux, charDigit_digitChar n h, List.length_singleton]
      norm_num
    · rw [decDigits_eq_high n h, decodeDigitsAux_append]
      rw [ih (n / 10) (Nat.div_lt_self (by omega) (by omega)) acc]
      simp only [Option.some_bind, decodeDigitsAux,
        charDigit_digitChar (n % 10) (Nat.mod_lt _ (by omega)),
        List.length_append, List.length_singleton]
      congr 1
      rw [pow_succ, ← mul_assoc]
      set M := acc * 10 ^ (decDigits (n / 10)).length
      omega

theorem decodeDigits_decDigits (n : Nat) : decodeDigits (decDigits n) = some n := by
  cases hd : decDigits n with
  | nil => exact absurd hd (decDigits_ne_nil n)
  | cons c cs =>
    have h2 := decodeDigitsAux_decDigits n 0
    rw [hd] at h2
    show decodeDigitsAux 0 (c :: cs) = some n
    rw [h2]
    simp

theorem get_password_hash_salt_inj (s1 s2 : Nat) (p1 p2 : String)
    (h : get_password_hash s1 p1 = get_password_hash s2 p2) : s1 = s2 := by
  have hdata : decDigits s1 ++ '$' :: decDigits (mixDigest s1 p1.data) =
      decDigits s2 ++ '$' :: decDigits (mixDigest s2 p2.data) :=
    congrArg String.data h
  have h1 := splitAtDollar_of_append (decDigits s1)
    (decDigits (mixDigest s1 p1.data)) (decDigits_no_dollar s1)
  have h2 := splitAtDollar_of_append (decDigits s2)
    (decDigits (mixDigest s2 p2.data)) (decDigits_no_dollar s2)
  rw [hdata, h2] at h1
  injection h1 with h1
  have hsalt : decDigits s2 = decDigits s1 := congrArg Prod.fst h1
  have hs1 := decodeDigits_decDigits s1
  have hs2 := decodeDigits_decDigits s2
  rw [hsalt, hs1] at hs2
  exact Option.some.inj hs2

theorem verify_password_of_hash (salt : Nat) (p : String) :
    verify_password p (get_password_hash salt p) = true := by
  unfold verify_password get_password_hash
  rw [string_data_mk,
    splitAtDollar_of_append _ _ (decDigits_no_dollar salt)]
  simp only [decodeDigits_decDigits]
  simp

/-- C8: for every plaintext, verify accepts the hash of that plaintext; two
hash calls with distinct random salts on the same plaintext give different
output strings, yet both verify; and verify is a total boolean function that
returns false on a malformed stored hash (one with no salt separator)
instead of throwing. -/
theorem hash_verify_contract (s1 s2 : Nat) (p : String) (hs : s1 ≠ s2) :
    verify_password p (get_password_hash s1 p) = true ∧
    verify_password p (get_password_hash s2 p) = true ∧
    get_password_hash s1 p ≠ get_password_hash s2 p ∧
    ∀ stored : String, splitAtDollar stored.data = none →
      verify_password p stored = false := by
  refine ⟨verify_password_of_hash s1 p, verify_password_of_hash s2 p, ?_, ?_⟩
  · intro h
    exact hs (get_password_hash_salt_inj s1 s2 p p h)
  · intro stored hsplit
    unfold verify_password
    rw [hsplit]

theorem hash_verify_contract_witness :
    verify_password "secret" (get_password_hash 3 "secret") = true ∧
    verify_password "secret" (get_password_hash 7 "secret") = true ∧
    get_password_hash 3 "secret" ≠ get_password_hash 7 "secret" ∧
    verify_password "secret" "malformed" = false := by
  have h := hash_verify_contract 3 7 "secret" (by decide)
  exact ⟨h.1, h.2.1, h.2.2.1, h.2.2.2 "malformed" (by decide)⟩

/-- C1 is violated by the code: register_admin is declared with
response_model = AdminUser, whose declared fields include hashed_password,
and it returns the full admin object; the 201 response body therefore
carries the stored password hash.  Evaluation at a concrete registration:
the response value contains hashed_password equal to the stored hash. -/
theorem register_response_contains_hash :
    (register_admin [] (fun p => String.append "bcrypt-" p) "id-1" 0
        ⟨"alice", "alice@example.com", "secret123", none⟩).2 =
      .ok 201 ⟨"id-1", "alice", "alice@example.com",
        String.append "bcrypt-" "secret123", none, true, false, 0⟩ ∧
    (register_admin [] (fun p => String.append "bcrypt-" p) "id-1" 0
        ⟨"alice", "alice@example.com", "secret123", none⟩).1 =
      [⟨"id-1", "alice", "alice@example.com",
        String.append "bcrypt-" "secret123", none, some true, some false, some 0⟩] := by
  constructor
  · rfl
  · rfl
